import Mathlib

/-!
Shallow embedding of `src/code.py`, a Chrome Remote Desktop provisioning
script.  The script reads an activation token from the operator, validates
the token and a PIN, requires root, and then runs a fixed pipeline of
shell commands through a wrapper `run_command`.

Modelling choices:
* A subprocess invocation's interaction with the outside world is an
  abstract `CmdOutcome`: either the process ran to completion with some
  return code and stderr text, or launching/running it raised an exception.
  A whole run is driven by an environment `env : Nat -> CmdOutcome`
  giving the outcome of the i-th `run_command` call (the script is strictly
  sequential, and every `run_command` call consumes exactly one outcome).
* `PState` records the observable effects the claims speak about: the
  ordered list of commands handed to the Command Runner (`cmds`), the
  logger output (`logs`), the `print` output (`prints`), and the
  environment variables set by the script (`env_vars`).  `idx` counts
  Command Runner invocations so far.
* Python `str.strip` is modelled by `pyStrip`, Python `str(int)` by
  `toString : Int -> String` (both agree on ASCII inputs: decimal digits
  with a leading minus sign for negatives).
* Operator interrupts (Ctrl+C) are caught by the script at the initial
  input prompt (`sys.exit(1)`, lines 49-51) and inside the final idle
  loop of `finish` (lines 240-245, after which the process unwinds
  normally and exits 0).  `InterruptPoint` selects where, if anywhere,
  the interrupt fires.  A valid run that is never interrupted loops
  forever in `while True: time.sleep(1)` and never exits (`blocked`).
-/

namespace CRD

/-- Outcome of one subprocess invocation, as observed by `run_command`:
either the subprocess ran to completion (with a return code and captured
stderr), or starting/running it raised an exception carrying a message. -/
inductive CmdOutcome where
  | completed (returncode : Int) (stderr : String)
  | launchError (msg : String)
deriving DecidableEq, Repr

/-- True exactly when the subprocess ran to completion. -/
def CmdOutcome.isCompleted : CmdOutcome → Bool
  | .completed _ _ => true
  | .launchError _ => false

/-- One recorded call to the Command Runner: the command string and the
`use_shell` / `check_result` flags it was invoked with. -/
structure CmdCall where
  command : String
  use_shell : Bool
  check_result : Bool
deriving DecidableEq, Repr

/-- A single-quote character, used inside several shell command strings. -/
def sq : String := String.singleton (Char.ofNat 39)

/-- Python's `str.strip()`: remove leading and trailing whitespace.
Implemented directly on the character list so that it evaluates by kernel
reduction (`String.trim` is defined by well-founded recursion and does
not). -/
def pyStrip (s : String) : String :=
  ⟨((s.data.dropWhile Char.isWhitespace).reverse.dropWhile
      Char.isWhitespace).reverse⟩

/-- The text of Python's `CalledProcessError` for a command and return code
(`subprocess.CalledProcessError.__str__`). -/
def calledProcessError (command : String) (rc : Int) : String :=
  "Command " ++ sq ++ command ++ sq ++ " returned non-zero exit status " ++
    toString rc ++ "."

/-- `run_command` (code.py lines 24-44).  `subprocess.run` with
`check=check_result` raises `CalledProcessError` exactly when
`check_result` is set and the return code is non-zero; that exception is
caught and logged (lines 39-41) and `False` is returned.  Any other
exception (failure to launch) is caught at lines 42-44.  The in-`try`
test at lines 34-37 is kept for fidelity but is dead code: when it is
reached, either `check_result` is false or the return code is zero.
Returns the boolean result together with the `logger.error` lines. -/
def run_command (command : String) (check_result : Bool) (o : CmdOutcome) :
    Bool × List String :=
  match o with
  | .completed rc stderr =>
      if check_result && rc != 0 then
        (false, ["Command failed: " ++ command ++ " - " ++
                  calledProcessError command rc])
      else if rc != 0 && check_result then
        (false, ["Command failed: " ++ command, "Error: " ++ stderr])
      else
        (true, [])
  | .launchError msg =>
      (false, ["Unexpected error running command: " ++ command ++ " - " ++ msg])

/-- `validate_inputs` (code.py lines 12-22), as a function of the globals
it reads.  Returns the boolean result and the `logger.error` lines. -/
def validate_inputs (CRD_SSH_Code : String) (Pin : Int) : Bool × List String :=
  if CRD_SSH_Code == "" || pyStrip CRD_SSH_Code == "" then
    (false, ["Please enter a valid Chrome Remote Desktop SSH code"])
  else if (toString Pin).length < 6 then
    (false, ["PIN must be at least 6 digits"])
  else
    (true, [])

/-- Fixed configuration (code.py lines 53-55). -/
def username : String := "user"

/-- Fixed configuration (code.py line 54). -/
def password : String := "root"

/-- Fixed configuration (code.py line 55). -/
def Pin : Int := 123456

/-- Observable state of a run: number of Command Runner invocations so
far, the recorded calls, the logger output, the `print` output, and the
environment variables set by the script. -/
structure PState where
  idx : Nat
  cmds : List CmdCall
  logs : List String
  prints : List String
  env_vars : List (String × String)
deriving DecidableEq, Repr

/-- The state at interpreter start. -/
def PState.start : PState := ⟨0, [], [], [], []⟩

/-- Perform one `run_command` call: consume the next outcome from the
environment, record the call, and append any error logs. -/
def runCmd (env : Nat → CmdOutcome) (command : String)
    (use_shell check_result : Bool) (s : PState) : Bool × PState :=
  let r := run_command command check_result (env s.idx)
  (r.1, { s with
            idx := s.idx + 1
            cmds := s.cmds ++ [⟨command, use_shell, check_result⟩]
            logs := s.logs ++ r.2 })

/-- Append one logger line. -/
def log (m : String) (s : PState) : PState :=
  { s with logs := s.logs ++ [m] }

/-- Append one `print` line. -/
def pr (m : String) (s : PState) : PState :=
  { s with prints := s.prints ++ [m] }

/-- Body of the loops that run a command best-effort
(`use_shell=True, check_result=False`) and ignore the result. -/
def bestEffortRun (env : Nat → CmdOutcome) (s : PState) (cmd : String) :
    PState :=
  (runCmd env cmd true false s).2

/-- Body of the loop in `install_crd` (code.py lines 122-124): run the
command best-effort and log a warning when it reports failure. -/
def bestEffortWarnRun (env : Nat → CmdOutcome) (s : PState) (cmd : String) :
    PState :=
  let r := runCmd env cmd true false s
  if r.1 then r.2 else log ("Command may have failed: " ++ cmd) r.2

/-- `CRDSetup.update_system` (code.py lines 90-93). -/
def update_system (env : Nat → CmdOutcome) (s : PState) : PState :=
  let s := log ("Updating system packages...") s
  (runCmd env ("apt update") true true s).2

/-- `CRDSetup.setup_user` (code.py lines 95-109). -/
def setup_user (env : Nat → CmdOutcome) (user pw : String) (s : PState) :
    PState :=
  let s := log ("Setting up user: " ++ user) s
  let s := (runCmd env ("id " ++ user ++ " || useradd -m " ++ user)
              true false s).2
  let s := (runCmd env ("usermod -aG sudo " ++ user) true true s).2
  let s := (runCmd env ("echo " ++ sq ++ user ++ ":" ++ pw ++ sq ++
              " | chpasswd") true true s).2
  (runCmd env ("sed -i " ++ sq ++ "s/\\/bin\\/sh/\\/bin\\/bash/g" ++ sq ++
      " /etc/passwd") true true s).2

/-- The command list of `install_crd` (code.py lines 116-120). -/
def crd_commands : List String :=
  [ "wget -q https://dl.google.com/linux/direct/chrome-remote-desktop_current_amd64.deb",
    "dpkg -i chrome-remote-desktop_current_amd64.deb",
    "apt install -f -y" ]

/-- `CRDSetup.install_crd` (code.py lines 111-127).  Note that it returns
`True` unconditionally (line 127): a failing command only produces a
warning log. -/
def install_crd (env : Nat → CmdOutcome) (s : PState) : Bool × PState :=
  let s := log ("Installing Chrome Remote Desktop...") s
  let s := crd_commands.foldl (bestEffortWarnRun env) s
  (true, log ("Chrome Remote Desktop installation completed!") s)

/-- The command list of `install_desktop_environment`
(code.py lines 136-142). -/
def de_commands : List String :=
  [ "apt install -y xfce4 desktop-base xfce4-terminal",
    "apt install -y xscreensaver dbus-x11",
    "apt remove -y gnome-terminal",
    "service lightdm stop",
    "service dbus start" ]

/-- The session registration command (code.py line 148). -/
def session_cmd : String :=
  "echo \"exec /etc/X11/Xsession /usr/bin/xfce4-session\" > /etc/chrome-remote-desktop-session"

/-- `CRDSetup.install_desktop_environment` (code.py lines 129-152).  It
sets `DEBIAN_FRONTEND=noninteractive` and returns `True` unconditionally
(line 152); every command result is ignored. -/
def install_desktop_environment (env : Nat → CmdOutcome) (s : PState) :
    Bool × PState :=
  let s := log ("Installing Desktop Environment...") s
  let s := { s with env_vars :=
              s.env_vars ++ [("DEBIAN_FRONTEND", "noninteractive")] }
  let s := de_commands.foldl (bestEffortRun env) s
  let s := (runCmd env session_cmd true false s).2
  (true, log ("XFCE4 Desktop Environment installed!") s)

/-- The command list of `install_google_chrome` (code.py lines 158-162). -/
def chrome_commands : List String :=
  [ "wget -q https://dl.google.com/linux/direct/google-chrome-stable_current_amd64.deb",
    "dpkg -i google-chrome-stable_current_amd64.deb",
    "apt install -f -y" ]

/-- `CRDSetup.install_google_chrome` (code.py lines 154-167). -/
def install_google_chrome (env : Nat → CmdOutcome) (s : PState) : PState :=
  let s := log ("Installing Google Chrome...") s
  let s := chrome_commands.foldl (bestEffortRun env) s
  log ("Google Chrome installed!") s

/-- `CRDSetup.install_python` (code.py lines 169-173). -/
def install_python (env : Nat → CmdOutcome) (s : PState) : PState :=
  let s := log ("Installing Python and pip...") s
  let s := bestEffortRun env s ("apt install -y python3 python3-pip")
  log ("Python installed!") s

/-- The command list of `install_selenium_webdriver`
(code.py lines 179-182). -/
def selenium_commands : List String :=
  [ "pip3 install selenium",
    "apt install -y chromium-chromedriver" ]

/-- `CRDSetup.install_selenium_webdriver` (code.py lines 175-187). -/
def install_selenium_webdriver (env : Nat → CmdOutcome) (s : PState) :
    PState :=
  let s := log ("Installing Selenium WebDriver...") s
  let s := selenium_commands.foldl (bestEffortRun env) s
  log ("Selenium WebDriver installed!") s

/-- `CRDSetup.install_qbittorrent` (code.py lines 189-193). -/
def install_qbittorrent (env : Nat → CmdOutcome) (s : PState) : PState :=
  let s := log ("Installing qBittorrent...") s
  let s := bestEffortRun env s ("apt install -y qbittorrent")
  log ("qBittorrent installed!") s

/-- Wallpaper target directory (code.py line 199). -/
def wallpaper_dir : String :=
  "/etc/alternatives/desktop-theme/wallpaper/contents/images/"

/-- Wallpaper resolutions (code.py line 202). -/
def wallpaper_resolutions : List String :=
  ["3200x2000", "3840x2160", "5120x2880"]

/-- Wallpaper base URL (code.py line 203). -/
def wallpaper_base_url : String :=
  "https://gitlab.com/chamod12/gcrd_deb_codesandbox.io_rdp/-/raw/main/walls"

/-- The curl command fetching one wallpaper (code.py lines 206-208). -/
def wallpaper_cmd (res : String) : String :=
  "curl -s -L -o " ++ wallpaper_dir ++ res ++ ".svg " ++
    wallpaper_base_url ++ "/" ++ res ++ ".svg"

/-- `CRDSetup.change_wallpaper` (code.py lines 195-211). -/
def change_wallpaper (env : Nat → CmdOutcome) (s : PState) : PState :=
  let s := log ("Setting up wallpapers...") s
  let s := bestEffortRun env s ("mkdir -p " ++ wallpaper_dir)
  let s := wallpaper_resolutions.foldl
    (fun s res => bestEffortRun env s (wallpaper_cmd res)) s
  log ("Wallpapers configured!") s

/-- A line of 60 equals signs (`"=" * 60` in code.py). -/
def eqLine : String := String.mk (List.replicate 60 (Char.ofNat 61))

/-- `CRDSetup.finish` (code.py lines 213-245), up to the idle loop:
three best-effort commands, then the connection-information block printed
to standard output.  The idle loop itself is handled by `program`. -/
def finish (env : Nat → CmdOutcome) (user token : String) (pin : Int)
    (un pw : String) (s : PState) : PState :=
  let s := log ("Finalizing setup...") s
  let s := bestEffortRun env s ("usermod -aG chrome-remote-desktop " ++ user)
  let crd_command := token ++ " --pin=" ++ toString pin
  let s := bestEffortRun env s
    ("su - " ++ user ++ " -c " ++ sq ++ crd_command ++ sq)
  let s := bestEffortRun env s ("systemctl start chrome-remote-desktop")
  let s := pr ("\n" ++ eqLine) s
  let s := pr ("CHROME REMOTE DESKTOP SETUP COMPLETE") s
  let s := pr (eqLine) s
  let s := pr ("PIN: " ++ toString pin) s
  let s := pr ("Username: " ++ un) s
  let s := pr ("Password: " ++ pw) s
  let s := pr (eqLine) s
  let s := pr ("\nSetup complete! Chrome Remote Desktop is now running.") s
  let s := pr ("You can now connect using Chrome Remote Desktop.") s
  pr ("\nPress Ctrl+C to exit this script.") s

/-- `CRDSetup.__init__` (code.py lines 62-88): the whole pipeline.  The
two abort checks are kept exactly as in the source; they are dead code
because `install_crd` and `install_desktop_environment` always return
`True`. -/
def crdsetup_init (env : Nat → CmdOutcome) (user token : String)
    (pin : Int) (un pw : String) (s : PState) : PState :=
  let s := log ("Starting Chrome Remote Desktop setup...") s
  let s := update_system env s
  let s := setup_user env user pw s
  let r := install_crd env s
  if !r.1 then log ("Failed to install Chrome Remote Desktop") r.2
  else
    let r2 := install_desktop_environment env r.2
    if !r2.1 then log ("Failed to install desktop environment") r2.2
    else
      let s := install_google_chrome env r2.2
      let s := install_python env s
      let s := install_selenium_webdriver env s
      let s := install_qbittorrent env s
      let s := change_wallpaper env s
      finish env user token pin un pw s

/-- Where, if anywhere, the operator's interrupt (Ctrl+C) fires: never,
at the initial input prompt (code.py lines 47-51), or during the final
idle loop (code.py lines 240-243). -/
inductive InterruptPoint where
  | never
  | atPrompt
  | atIdleWait
deriving DecidableEq, Repr

/-- How the process ends: with an exit code, or blocked forever in the
idle loop. -/
inductive ProgResult where
  | exit (code : Nat)
  | blocked
deriving DecidableEq, Repr

/-- Everything observable about one run of the script. -/
structure RunOutput where
  result : ProgResult
  cmds : List CmdCall
  logs : List String
  prints : List String
deriving DecidableEq, Repr

/-- The whole script: module-level prompt and validation (code.py
lines 46-59), then `main` (lines 247-263): the root check, the pipeline,
and the idle loop.  `rawToken` is what the operator types at the prompt
(the script stores `input(...).strip()`); `pin` and `euid` are the `Pin`
global and the effective uid.  In the source `Pin` is the constant
`123456`; the model takes it as a parameter so that the validation logic
can be examined on every value (see `program_source`). -/
def program (rawToken : String) (pin : Int) (euid : Nat)
    (env : Nat → CmdOutcome) (intr : InterruptPoint) : RunOutput :=
  if intr = .atPrompt then
    ⟨.exit 1, [], [], ["\nOperation cancelled by user"]⟩
  else
    let CRD_SSH_Code := pyStrip rawToken
    let v := validate_inputs CRD_SSH_Code pin
    if !v.1 then
      ⟨.exit 1, [], v.2, []⟩
    else if euid != 0 then
      ⟨.exit 1, [], ["This script must be run as root"], []⟩
    else
      let s := crdsetup_init env username CRD_SSH_Code pin username password
        PState.start
      if intr = .atIdleWait then
        ⟨.exit 0, s.cmds, s.logs ++ ["Script terminated by user"],
          s.prints ++ ["\nExiting..."]⟩
      else
        ⟨.blocked, s.cmds, s.logs, s.prints⟩

/-- The script exactly as shipped, with the constant `Pin = 123456`. -/
def program_source (rawToken : String) (euid : Nat)
    (env : Nat → CmdOutcome) (intr : InterruptPoint) : RunOutput :=
  program rawToken Pin euid env intr

/-- The full command trace of one pipeline run, as recorded `CmdCall`s, in
order.  This list is written out from the source; the lemmas below prove
that `crdsetup_init` produces exactly this trace for EVERY environment. -/
def pipelineCmds (user pw token : String) (pin : Int) : List CmdCall :=
  let crd_command := token ++ " --pin=" ++ toString pin
  [ ⟨"apt update", true, true⟩,
    ⟨"id " ++ user ++ " || useradd -m " ++ user, true, false⟩,
    ⟨"usermod -aG sudo " ++ user, true, true⟩,
    ⟨"echo " ++ sq ++ user ++ ":" ++ pw ++ sq ++ " | chpasswd", true, true⟩,
    ⟨"sed -i " ++ sq ++ "s/\\/bin\\/sh/\\/bin\\/bash/g" ++ sq ++
      " /etc/passwd", true, true⟩ ]
  ++ crd_commands.map (fun c => ⟨c, true, false⟩)
  ++ de_commands.map (fun c => ⟨c, true, false⟩)
  ++ [ ⟨session_cmd, true, false⟩ ]
  ++ chrome_commands.map (fun c => ⟨c, true, false⟩)
  ++ [ ⟨"apt install -y python3 python3-pip", true, false⟩ ]
  ++ selenium_commands.map (fun c => ⟨c, true, false⟩)
  ++ [ ⟨"apt install -y qbittorrent", true, false⟩,
       ⟨"mkdir -p " ++ wallpaper_dir, true, false⟩ ]
  ++ wallpaper_resolutions.map (fun res => ⟨wallpaper_cmd res, true, false⟩)
  ++ [ ⟨"usermod -aG chrome-remote-desktop " ++ user, true, false⟩,
       ⟨"su - " ++ user ++ " -c " ++ sq ++ crd_command ++ sq, true, false⟩,
       ⟨"systemctl start chrome-remote-desktop", true, false⟩ ]

/-- The `print` lines emitted by `finish` (code.py lines 228-237). -/
def finishPrints (pin : Int) (un pw : String) : List String :=
  [ "\n" ++ eqLine,
    "CHROME REMOTE DESKTOP SETUP COMPLETE",
    eqLine,
    "PIN: " ++ toString pin,
    "Username: " ++ un,
    "Password: " ++ pw,
    eqLine,
    "\nSetup complete! Chrome Remote Desktop is now running.",
    "You can now connect using Chrome Remote Desktop.",
    "\nPress Ctrl+C to exit this script." ]

lemma runCmd_snd_cmds (env : Nat → CmdOutcome) (c : String) (sh ck : Bool)
    (s : PState) :
    (runCmd env c sh ck s).2.cmds = s.cmds ++ [⟨c, sh, ck⟩] := rfl

lemma runCmd_snd_prints (env : Nat → CmdOutcome) (c : String) (sh ck : Bool)
    (s : PState) :
    (runCmd env c sh ck s).2.prints = s.prints := rfl

lemma log_cmds (m : String) (s : PState) : (log m s).cmds = s.cmds := rfl

lemma log_prints (m : String) (s : PState) :
    (log m s).prints = s.prints := rfl

lemma pr_cmds (m : String) (s : PState) : (pr m s).cmds = s.cmds := rfl

lemma pr_prints (m : String) (s : PState) :
    (pr m s).prints = s.prints ++ [m] := rfl

lemma bestEffortRun_cmds (env : Nat → CmdOutcome) (s : PState) (c : String) :
    (bestEffortRun env s c).cmds = s.cmds ++ [⟨c, true, false⟩] := rfl

lemma bestEffortRun_prints (env : Nat → CmdOutcome) (s : PState)
    (c : String) : (bestEffortRun env s c).prints = s.prints := rfl

lemma bestEffortWarnRun_cmds (env : Nat → CmdOutcome) (s : PState)
    (c : String) :
    (bestEffortWarnRun env s c).cmds = s.cmds ++ [⟨c, true, false⟩] := by
  unfold bestEffortWarnRun
  cases h : (runCmd env c true false s).1 <;>
    simp [h, log_cmds, runCmd_snd_cmds]

lemma bestEffortWarnRun_prints (env : Nat → CmdOutcome) (s : PState)
    (c : String) : (bestEffortWarnRun env s c).prints = s.prints := by
  unfold bestEffortWarnRun
  cases h : (runCmd env c true false s).1 <;>
    simp [h, log_prints, runCmd_snd_prints]

lemma foldl_bestEffortRun_cmds (env : Nat → CmdOutcome) (l : List String)
    (s : PState) :
    (l.foldl (bestEffortRun env) s).cmds
      = s.cmds ++ l.map (fun c => (⟨c, true, false⟩ : CmdCall)) := by
  induction l generalizing s with
  | nil => simp
  | cons c t ih => simp [List.foldl_cons, ih, bestEffortRun_cmds]

lemma foldl_bestEffortRun_prints (env : Nat → CmdOutcome) (l : List String)
    (s : PState) :
    (l.foldl (bestEffortRun env) s).prints = s.prints := by
  induction l generalizing s with
  | nil => simp
  | cons c t ih => simp [List.foldl_cons, ih, bestEffortRun_prints]

lemma foldl_bestEffortWarnRun_cmds (env : Nat → CmdOutcome)
    (l : List String) (s : PState) :
    (l.foldl (bestEffortWarnRun env) s).cmds
      = s.cmds ++ l.map (fun c => (⟨c, true, false⟩ : CmdCall)) := by
  induction l generalizing s with
  | nil => simp
  | cons c t ih => simp [List.foldl_cons, ih, bestEffortWarnRun_cmds]

lemma foldl_bestEffortWarnRun_prints (env : Nat → CmdOutcome)
    (l : List String) (s : PState) :
    (l.foldl (bestEffortWarnRun env) s).prints = s.prints := by
  induction l generalizing s with
  | nil => simp
  | cons c t ih => simp [List.foldl_cons, ih, bestEffortWarnRun_prints]

lemma foldl_wallpaper_cmds (env : Nat → CmdOutcome) (l : List String)
    (s : PState) :
    (l.foldl (fun s res => bestEffortRun env s (wallpaper_cmd res)) s).cmds
      = s.cmds ++ l.map (fun res => (⟨wallpaper_cmd res, true, false⟩ :
          CmdCall)) := by
  induction l generalizing s with
  | nil => simp
  | cons c t ih => simp [List.foldl_cons, ih, bestEffortRun_cmds]

lemma foldl_wallpaper_prints (env : Nat → CmdOutcome) (l : List String)
    (s : PState) :
    (l.foldl (fun s res => bestEffortRun env s (wallpaper_cmd res))
      s).prints = s.prints := by
  induction l generalizing s with
  | nil => simp
  | cons c t ih => simp [List.foldl_cons, ih, bestEffortRun_prints]

lemma install_crd_fst (env : Nat → CmdOutcome) (s : PState) :
    (install_crd env s).1 = true := rfl

lemma install_desktop_environment_fst (env : Nat → CmdOutcome)
    (s : PState) : (install_desktop_environment env s).1 = true := rfl

lemma install_crd_snd_cmds (env : Nat → CmdOutcome) (s : PState) :
    (install_crd env s).2.cmds
      = s.cmds ++ crd_commands.map (fun c => (⟨c, true, false⟩ : CmdCall)) := by
  simp [install_crd, foldl_bestEffortWarnRun_cmds, log_cmds]

lemma install_crd_snd_prints (env : Nat → CmdOutcome) (s : PState) :
    (install_crd env s).2.prints = s.prints := by
  simp [install_crd, foldl_bestEffortWarnRun_prints, log_prints]

lemma install_desktop_environment_snd_cmds (env : Nat → CmdOutcome)
    (s : PState) :
    (install_desktop_environment env s).2.cmds
      = s.cmds ++ de_commands.map (fun c => (⟨c, true, false⟩ : CmdCall))
          ++ [⟨session_cmd, true, false⟩] := by
  simp [install_desktop_environment, foldl_bestEffortRun_cmds, log_cmds,
    runCmd_snd_cmds]

lemma install_desktop_environment_snd_prints (env : Nat → CmdOutcome)
    (s : PState) :
    (install_desktop_environment env s).2.prints = s.prints := by
  simp [install_desktop_environment, foldl_bestEffortRun_prints, log_prints,
    runCmd_snd_prints]

lemma update_system_cmds (env : Nat → CmdOutcome) (s : PState) :
    (update_system env s).cmds
      = s.cmds ++ [⟨"apt update", true, true⟩] := rfl

lemma update_system_prints (env : Nat → CmdOutcome) (s : PState) :
    (update_system env s).prints = s.prints := rfl

lemma setup_user_cmds (env : Nat → CmdOutcome) (user pw : String)
    (s : PState) :
    (setup_user env user pw s).cmds
      = s.cmds ++
        [ ⟨"id " ++ user ++ " || useradd -m " ++ user, true, false⟩,
          ⟨"usermod -aG sudo " ++ user, true, true⟩,
          ⟨"echo " ++ sq ++ user ++ ":" ++ pw ++ sq ++ " | chpasswd",
            true, true⟩,
          ⟨"sed -i " ++ sq ++ "s/\\/bin\\/sh/\\/bin\\/bash/g" ++ sq ++
            " /etc/passwd", true, true⟩ ] := by
  simp [setup_user, runCmd_snd_cmds, log_cmds]

lemma setup_user_prints (env : Nat → CmdOutcome) (user pw : String)
    (s : PState) : (setup_user env user pw s).prints = s.prints := rfl

lemma install_google_chrome_cmds (env : Nat → CmdOutcome) (s : PState) :
    (install_google_chrome env s).cmds
      = s.cmds ++ chrome_commands.map (fun c => (⟨c, true, false⟩ :
          CmdCall)) := by
  simp [install_google_chrome, foldl_bestEffortRun_cmds, log_cmds]

lemma install_google_chrome_prints (env : Nat → CmdOutcome) (s : PState) :
    (install_google_chrome env s).prints = s.prints := by
  simp [install_google_chrome, foldl_bestEffortRun_prints, log_prints]

lemma install_python_cmds (env : Nat → CmdOutcome) (s : PState) :
    (install_python env s).cmds
      = s.cmds ++ [⟨"apt install -y python3 python3-pip", true, false⟩] :=
  rfl

lemma install_python_prints (env : Nat → CmdOutcome) (s : PState) :
    (install_python env s).prints = s.prints := rfl

lemma install_selenium_webdriver_cmds (env : Nat → CmdOutcome)
    (s : PState) :
    (install_selenium_webdriver env s).cmds
      = s.cmds ++ selenium_commands.map (fun c => (⟨c, true, false⟩ :
          CmdCall)) := by
  simp [install_selenium_webdriver, foldl_bestEffortRun_cmds, log_cmds]

lemma install_selenium_webdriver_prints (env : Nat → CmdOutcome)
    (s : PState) : (install_selenium_webdriver env s).prints = s.prints := by
  simp [install_selenium_webdriver, foldl_bestEffortRun_prints, log_prints]

lemma install_qbittorrent_cmds (env : Nat → CmdOutcome) (s : PState) :
    (install_qbittorrent env s).cmds
      = s.cmds ++ [⟨"apt install -y qbittorrent", true, false⟩] := rfl

lemma install_qbittorrent_prints (env : Nat → CmdOutcome) (s : PState) :
    (install_qbittorrent env s).prints = s.prints := rfl

lemma change_wallpaper_cmds (env : Nat → CmdOutcome) (s : PState) :
    (change_wallpaper env s).cmds
      = s.cmds ++ [⟨"mkdir -p " ++ wallpaper_dir, true, false⟩]
          ++ wallpaper_resolutions.map (fun res =>
              (⟨wallpaper_cmd res, true, false⟩ : CmdCall)) := by
  simp [change_wallpaper, foldl_wallpaper_cmds, bestEffortRun_cmds,
    log_cmds]

lemma change_wallpaper_prints (env : Nat → CmdOutcome) (s : PState) :
    (change_wallpaper env s).prints = s.prints := by
  simp [change_wallpaper, foldl_wallpaper_prints, bestEffortRun_prints,
    log_prints]

lemma finish_cmds (env : Nat → CmdOutcome) (user token : String)
    (pin : Int) (un pw : String) (s : PState) :
    (finish env user token pin un pw s).cmds
      = s.cmds ++
        [ ⟨"usermod -aG chrome-remote-desktop " ++ user, true, false⟩,
          ⟨"su - " ++ user ++ " -c " ++ sq ++
            (token ++ " --pin=" ++ toString pin) ++ sq, true, false⟩,
          ⟨"systemctl start chrome-remote-desktop", true, false⟩ ] := by
  simp [finish, pr_cmds, bestEffortRun_cmds, log_cmds]

lemma finish_prints (env : Nat → CmdOutcome) (user token : String)
    (pin : Int) (un pw : String) (s : PState) :
    (finish env user token pin un pw s).prints
      = s.prints ++ finishPrints pin un pw := by
  simp [finish, finishPrints, pr_prints, bestEffortRun_prints, log_prints]

/-- The pipeline's command trace does not depend on the environment at
all: whatever each subprocess does — succeed, exit non-zero, or fail to
launch — `CRDSetup.__init__` records exactly the trace `pipelineCmds`. -/
lemma crdsetup_init_cmds (env : Nat → CmdOutcome) (user token : String)
    (pin : Int) (un pw : String) (s : PState) :
    (crdsetup_init env user token pin un pw s).cmds
      = s.cmds ++ pipelineCmds user pw token pin := by
  simp [crdsetup_init, install_crd_fst, install_desktop_environment_fst,
    log_cmds, update_system_cmds, setup_user_cmds, install_crd_snd_cmds,
    install_desktop_environment_snd_cmds, install_google_chrome_cmds,
    install_python_cmds, install_selenium_webdriver_cmds,
    install_qbittorrent_cmds, change_wallpaper_cmds, finish_cmds,
    pipelineCmds]

/-- The pipeline's `print` output likewise does not depend on the
environment: it is exactly the `finish` summary block. -/
lemma crdsetup_init_prints (env : Nat → CmdOutcome) (user token : String)
    (pin : Int) (un pw : String) (s : PState) :
    (crdsetup_init env user token pin un pw s).prints
      = s.prints ++ finishPrints pin un pw := by
  simp [crdsetup_init, install_crd_fst, install_desktop_environment_fst,
    log_prints, update_system_prints, setup_user_prints,
    install_crd_snd_prints, install_desktop_environment_snd_prints,
    install_google_chrome_prints, install_python_prints,
    install_selenium_webdriver_prints, install_qbittorrent_prints,
    change_wallpaper_prints, finish_prints]

/-- Claim C1 (code bug): with EVERY Command Runner invocation failing
(each subprocess raises), `install_crd` and
`install_desktop_environment` still return `True`, the pipeline runs the
subsequent steps (the browser-install command is in the trace), and the
run ends normally — the abort checks in `CRDSetup.__init__` are dead
code, contradicting the claimed fail-fast behaviour. -/
theorem crd_failure_not_propagated :
    (install_crd (fun _ => CmdOutcome.launchError ("boom")) PState.start).1
      = true ∧
    (install_desktop_environment (fun _ => CmdOutcome.launchError ("boom"))
        PState.start).1 = true ∧
    (⟨"wget -q https://dl.google.com/linux/direct/google-chrome-stable_current_amd64.deb",
        true, false⟩ : CmdCall) ∈
      (program ("crd-code-abc") 482913 0
        (fun _ => CmdOutcome.launchError ("boom")) .atIdleWait).cmds ∧
    (program ("crd-code-abc") 482913 0
        (fun _ => CmdOutcome.launchError ("boom")) .atIdleWait).result
      = ProgResult.exit 0 :=
  ⟨rfl, rfl, by decide, by decide⟩

/-- Claim C2: for every activation token that is empty or consists only
of whitespace, the program exits with code 1 before any Command Runner
invocation. -/
theorem empty_token_aborts (rawToken : String) (pin : Int) (euid : Nat)
    (env : Nat → CmdOutcome) (intr : InterruptPoint)
    (h : pyStrip rawToken = "") :
    (program rawToken pin euid env intr).result = .exit 1 ∧
    (program rawToken pin euid env intr).cmds = [] := by
  by_cases hi : intr = .atPrompt
  · simp [program, hi]
  · simp [program, hi, validate_inputs, h]

/-- Witness for claim C2 at the spec scenario: token `""`, PIN `482913`,
run as root, no interrupt. -/
theorem empty_token_aborts_witness :
    (program ("") 482913 0 (fun _ => CmdOutcome.completed 0 (""))
        .never).result = .exit 1 ∧
    (program ("") 482913 0 (fun _ => CmdOutcome.completed 0 (""))
        .never).cmds = [] :=
  empty_token_aborts ("") 482913 0 (fun _ => CmdOutcome.completed 0 (""))
    .never (by decide)

/-- Claim C3: for every PIN whose decimal representation has fewer than
6 characters, the program exits with code 1 before any Command Runner
invocation. -/
theorem short_pin_aborts (rawToken : String) (pin : Int) (euid : Nat)
    (env : Nat → CmdOutcome) (intr : InterruptPoint)
    (h : (toString pin).length < 6) :
    (program rawToken pin euid env intr).result = .exit 1 ∧
    (program rawToken pin euid env intr).cmds = [] := by
  by_cases hi : intr = .atPrompt
  · simp [program, hi]
  · have hv : (validate_inputs (pyStrip rawToken) pin).1 = false := by
      unfold validate_inputs
      split
      · rfl
      · simp [h]
    simp [program, hi, hv]

/-- Witness for claim C3: PIN `12345` (five digits), valid token, run as
root. -/
theorem short_pin_aborts_witness :
    (program ("crd-code-abc") 12345 0
        (fun _ => CmdOutcome.completed 0 ("")) .never).result = .exit 1 ∧
    (program ("crd-code-abc") 12345 0
        (fun _ => CmdOutcome.completed 0 ("")) .never).cmds = [] :=
  short_pin_aborts ("crd-code-abc") 12345 0
    (fun _ => CmdOutcome.completed 0 ("")) .never (by decide)

/-- Claim C4: whenever the effective uid is not 0 the program exits with
code 1 and the Command Runner is never invoked. -/
theorem nonroot_aborts (rawToken : String) (pin : Int) (euid : Nat)
    (env : Nat → CmdOutcome) (intr : InterruptPoint) (h : euid ≠ 0) :
    (program rawToken pin euid env intr).result = .exit 1 ∧
    (program rawToken pin euid env intr).cmds = [] := by
  by_cases hi : intr = .atPrompt
  · simp [program, hi]
  · cases hv : (validate_inputs (pyStrip rawToken) pin).1 with
    | false => simp [program, hi, hv]
    | true => simp [program, hi, hv, bne_iff_ne, h]

/-- Witness for claim C4: valid inputs but effective uid 1000. -/
theorem nonroot_aborts_witness :
    (program ("crd-code-abc") 482913 1000
        (fun _ => CmdOutcome.completed 0 ("")) .never).result = .exit 1 ∧
    (program ("crd-code-abc") 482913 1000
        (fun _ => CmdOutcome.completed 0 ("")) .never).cmds = [] :=
  nonroot_aborts ("crd-code-abc") 482913 1000
    (fun _ => CmdOutcome.completed 0 ("")) .never (by decide)

/-- Claim C5: `run_command` is a total boolean-returning function (it
never propagates an exception).  When the subprocess fails to launch, or
exits non-zero with the check flag set, it logs the command and the
error detail and returns `False`; it returns `True` otherwise. -/
theorem run_command_error_spec (c : String) (check : Bool) :
    (∀ m, run_command c check (.launchError m)
        = (false,
            ["Unexpected error running command: " ++ c ++ " - " ++ m])) ∧
    (∀ rc stderr, rc ≠ 0 →
        run_command c true (.completed rc stderr)
          = (false, ["Command failed: " ++ c ++ " - " ++
              calledProcessError c rc])) ∧
    (∀ rc stderr, check = false ∨ rc = 0 →
        run_command c check (.completed rc stderr) = (true, [])) := by
  refine ⟨fun m => rfl, fun rc stderr h => ?_, fun rc stderr h => ?_⟩
  · have hb : (rc != 0) = true := bne_iff_ne.mpr h
    simp [run_command, hb]
  · rcases h with h | h
    · subst h
      simp [run_command]
    · subst h
      simp [run_command]

/-- Witness for claim C5: `apt update` exits with status 1 under
`check_result=True`; `run_command` returns `False` and logs the command
with the `CalledProcessError` detail. -/
theorem run_command_error_spec_witness :
    run_command ("apt update") true (.completed 1 ("boom"))
      = (false, ["Command failed: " ++ ("apt update") ++ " - " ++
          calledProcessError ("apt update") 1]) :=
  (run_command_error_spec ("apt update") true).2.1 1 ("boom") (by decide)

/-- Claim C6: no Command Runner failure anywhere changes the pipeline's
command trace — for every environment the trace is exactly
`pipelineCmds`, which runs through the finalization step (the trace
always contains the service-start command). -/
theorem best_effort_failures_do_not_stop_pipeline
    (env : Nat → CmdOutcome) (user pw token un : String) (pin : Int) :
    (crdsetup_init env user token pin un pw PState.start).cmds
      = pipelineCmds user pw token pin ∧
    (⟨"systemctl start chrome-remote-desktop", true, false⟩ : CmdCall) ∈
      (crdsetup_init env user token pin un pw PState.start).cmds := by
  have h := crdsetup_init_cmds env user token pin un pw PState.start
  constructor
  · simpa [PState.start] using h
  · rw [h]
    simp [pipelineCmds, PState.start]

/-- Claim C7 counterexample: an operator interrupt at the input prompt
makes the process exit with code 1, not 0 as the claim states. -/
theorem prompt_interrupt_exits_one :
    (program ("crd-code-abc") 482913 0
        (fun _ => CmdOutcome.completed 0 ("")) .atPrompt).result
      = ProgResult.exit 1 ∧
    (program ("crd-code-abc") 482913 0
        (fun _ => CmdOutcome.completed 0 ("")) .atPrompt).result
      ≠ ProgResult.exit 0 :=
  ⟨by decide, by decide⟩

/-- Claim C7 amended: the exit code is 0 exactly when validation and the
privilege check pass and the run is interrupted at the final idle wait;
it is 1 exactly on an interrupt at the input prompt, invalid input, or
missing privilege; a valid, never-interrupted run reaches the idle wait
and blocks without exiting. -/
theorem exit_code_characterization (rawToken : String) (pin : Int)
    (euid : Nat) (env : Nat → CmdOutcome) (intr : InterruptPoint) :
    ((program rawToken pin euid env intr).result = .exit 0 ↔
      (intr = .atIdleWait ∧
        (validate_inputs (pyStrip rawToken) pin).1 = true ∧ euid = 0)) ∧
    ((program rawToken pin euid env intr).result = .exit 1 ↔
      (intr = .atPrompt ∨
        (validate_inputs (pyStrip rawToken) pin).1 = false ∨ euid ≠ 0)) ∧
    ((program rawToken pin euid env intr).result = .blocked ↔
      (intr = .never ∧
        (validate_inputs (pyStrip rawToken) pin).1 = true ∧ euid = 0)) := by
  cases intr <;>
    cases hv : (validate_inputs (pyStrip rawToken) pin).1 <;>
      by_cases he : euid = 0 <;>
        simp [program, hv, he, bne_iff_ne]

/-- Claim C8: with a non-empty, non-whitespace token and a PIN of at
least 6 decimal characters, run as root, validation passes, the pipeline
reaches finalization, and the printed summary contains the PIN line and
the fixed username and password. -/
theorem valid_run_reaches_finish (rawToken : String) (pin : Int)
    (env : Nat → CmdOutcome) (intr : InterruptPoint)
    (h1 : pyStrip rawToken = rawToken) (h2 : rawToken ≠ "")
    (h3 : ¬ (toString pin).length < 6) (hi : intr ≠ .atPrompt) :
    (validate_inputs rawToken pin).1 = true ∧
    ("PIN: " ++ toString pin) ∈ (program rawToken pin 0 env intr).prints ∧
    ("Username: " ++ username) ∈ (program rawToken pin 0 env intr).prints ∧
    ("Password: " ++ password) ∈ (program rawToken pin 0 env intr).prints ∧
    (⟨"systemctl start chrome-remote-desktop", true, false⟩ : CmdCall) ∈
      (program rawToken pin 0 env intr).cmds := by
  have hb : (rawToken == "" || pyStrip rawToken == "") = false := by
    simp [h1, h2]
  have hv : (validate_inputs rawToken pin).1 = true := by
    unfold validate_inputs
    simp [hb, h3]
  cases intr with
  | atPrompt => exact absurd rfl hi
  | never =>
      refine ⟨hv, ?_, ?_, ?_, ?_⟩ <;>
        simp [program, h1, hv, crdsetup_init_prints, crdsetup_init_cmds,
          finishPrints, pipelineCmds, PState.start]
  | atIdleWait =>
      refine ⟨hv, ?_, ?_, ?_, ?_⟩ <;>
        simp [program, h1, hv, crdsetup_init_prints, crdsetup_init_cmds,
          finishPrints, pipelineCmds, PState.start]

/-- Witness for claim C8 at the spec scenario: token `"crd-code-abc"`,
PIN `482913`, every subprocess succeeding, interrupt at the idle wait. -/
theorem valid_run_reaches_finish_witness :
    (validate_inputs ("crd-code-abc") 482913).1 = true ∧
    ("PIN: " ++ toString (482913 : Int)) ∈
      (program ("crd-code-abc") 482913 0
        (fun _ => CmdOutcome.completed 0 ("")) .atIdleWait).prints ∧
    ("Username: " ++ username) ∈
      (program ("crd-code-abc") 482913 0
        (fun _ => CmdOutcome.completed 0 ("")) .atIdleWait).prints ∧
    ("Password: " ++ password) ∈
      (program ("crd-code-abc") 482913 0
        (fun _ => CmdOutcome.completed 0 ("")) .atIdleWait).prints ∧
    (⟨"systemctl start chrome-remote-desktop", true, false⟩ : CmdCall) ∈
      (program ("crd-code-abc") 482913 0
        (fun _ => CmdOutcome.completed 0 ("")) .atIdleWait).cmds :=
  valid_run_reaches_finish ("crd-code-abc") 482913
    (fun _ => CmdOutcome.completed 0 ("")) .atIdleWait
    (by decide) (by decide) (by decide) (by decide)

/-- Claim C9: with `check_result=False`, `run_command` returns `True`
whenever the subprocess ran to completion — whatever its exit status —
and `False` exactly when launching or running it raised. -/
theorem run_command_no_check (c : String) (o : CmdOutcome) :
    (run_command c false o).1 = o.isCompleted := by
  cases o <;> simp [run_command, CmdOutcome.isCompleted]

/-- Claim C10: validation counts the characters of `str(Pin)`, so the
five-digit negative PIN `-12345` passes (its decimal representation,
minus sign included, has 6 characters). -/
theorem negative_pin_passes_validation (tok : String)
    (h1 : tok ≠ "") (h2 : pyStrip tok ≠ "") :
    (validate_inputs tok (-12345)).1 = true ∧
    (toString (-12345 : Int)).length = 6 := by
  refine ⟨?_, by decide⟩
  have hb : (tok == "" || pyStrip tok == "") = false := by
    simp [h1, h2]
  have hl : ¬ (toString (-12345 : Int)).length < 6 := by decide
  unfold validate_inputs
  simp [hb, hl]

/-- Witness for claim C10 at the token `"crd-code-abc"`. -/
theorem negative_pin_passes_validation_witness :
    (validate_inputs ("crd-code-abc") (-12345)).1 = true ∧
    (toString (-12345 : Int)).length = 6 :=
  negative_pin_passes_validation ("crd-code-abc") (by decide) (by decide)

end CRD
